import Mathlib

/-!
Verification of the `lumina` / `generate-gemini-image` image-generation
pipeline (`src/lumina/core.py`, `src/generate_gemini_image/core.py`,
`src/generate_gemini_image/cli.py`) against its natural-language
specification.

The Python code is shallowly embedded: the `ImageGenerator.generate`
method becomes a pure fold over the counted loop, with the external
GenAI client modelled as an oracle `Nat → Except PyErr Response` giving
the outcome of the i-th `generate_content` invocation (a failed request
is one the oracle answers with `Except.error`).  File writes are
modelled by the returned list of output paths.  Exceptions inside an
iteration are modelled as arising at the client invocation, the fallible
external call of the try-block.
-/

/-! ### Generic string and decimal-printing helpers -/

theorem string_data_append (s t : String) : (s ++ t).data = s.data ++ t.data := by
  cases s; cases t; rfl

/-- Decimal rendering of a natural number, one char per digit: models how
Python renders the loop index `i` inside an f-string. -/
def decDigits (n : Nat) : List Char :=
  if _h : n < 10 then [Nat.digitChar n]
  else decDigits (n / 10) ++ [Nat.digitChar (n % 10)]
decreasing_by exact Nat.div_lt_self (by omega) (by omega)

def decRepr (n : Nat) : String :=
  ⟨decDigits n⟩

theorem decDigits_lt (n : Nat) (h : n < 10) : decDigits n = [Nat.digitChar n] := by
  rw [decDigits, dif_pos h]

theorem decDigits_ge (n : Nat) (h : ¬ n < 10) :
    decDigits n = decDigits (n / 10) ++ [Nat.digitChar (n % 10)] := by
  conv_lhs => rw [decDigits]
  rw [dif_neg h]

theorem decDigits_ne_nil (n : Nat) : decDigits n ≠ [] := by
  by_cases h : n < 10
  · rw [decDigits_lt n h]; simp
  · rw [decDigits_ge n h]; simp

theorem digitChar_inj_lt : ∀ a < 10, ∀ b < 10, Nat.digitChar a = Nat.digitChar b → a = b := by
  decide

theorem decDigits_inj : ∀ m n : Nat, decDigits m = decDigits n → m = n := by
  intro m
  induction m using Nat.strong_induction_on with
  | _ m ih =>
    intro n h
    by_cases hm : m < 10 <;> by_cases hn : n < 10
    · rw [decDigits_lt m hm, decDigits_lt n hn] at h
      exact digitChar_inj_lt m hm n hn (List.singleton_inj.mp h)
    · rw [decDigits_lt m hm, decDigits_ge n hn] at h
      rcases List.exists_cons_of_ne_nil (decDigits_ne_nil (n / 10)) with ⟨a, l, hd⟩
      rw [hd] at h
      simp at h
    · rw [decDigits_ge m hm, decDigits_lt n hn] at h
      rcases List.exists_cons_of_ne_nil (decDigits_ne_nil (m / 10)) with ⟨a, l, hd⟩
      rw [hd] at h
      simp at h
    · rw [decDigits_ge m hm, decDigits_ge n hn] at h
      have hinj := List.append_inj' h (by simp)
      have hdiv : m / 10 = n / 10 :=
        ih (m / 10) (Nat.div_lt_self (by omega) (by omega)) (n / 10) hinj.1
      have hmod : m % 10 = n % 10 :=
        digitChar_inj_lt (m % 10) (Nat.mod_lt _ (by omega)) (n % 10)
          (Nat.mod_lt _ (by omega)) (List.singleton_inj.mp hinj.2)
      omega

/-- Cancellation: a decimal index embedded between two fixed strings
determines itself. -/
theorem append_decRepr_inj (A B : String) (i j : Nat)
    (h : A ++ decRepr i ++ B = A ++ decRepr j ++ B) : i = j := by
  apply decDigits_inj
  have hd := congrArg String.data h
  simp only [string_data_append, decRepr, List.append_assoc] at hd
  exact List.append_cancel_right (List.append_cancel_left hd)

/-- Python `str.upper()` (ASCII range, which covers every input the
program manipulates). -/
def pyUpper (s : String) : String :=
  ⟨s.data.map Char.toUpper⟩

/-- Python truthiness of an `Optional[str]`: `None` and `""` are falsy. -/
def strTruthy : Option String → Bool
  | none => false
  | some s => s ≠ ""

/-- Index of the last `.` in a char list (Python `str.rfind`). -/
def lastDotPos (cs : List Char) : Option Nat :=
  match cs.reverse.findIdx? (fun c => c = '.') with
  | some k => some (cs.length - 1 - k)
  | none => none

/-- Python `pathlib.PurePath(name).suffix` for a bare file name: the part
from the last dot, provided that dot is neither the first nor the last
character; otherwise the empty string. -/
def pySuffix (name : String) : String :=
  match lastDotPos name.data with
  | some i => if 0 < i ∧ i < name.data.length - 1 then ⟨name.data.drop i⟩ else ""
  | none => ""

/-- Python `pathlib.PurePath(name).stem` for a bare file name. -/
def pyStem (name : String) : String :=
  match lastDotPos name.data with
  | some i => if 0 < i ∧ i < name.data.length - 1 then ⟨name.data.take i⟩ else name
  | none => name

/-- Python slice `s[-k:]`: the last `k` characters (the whole string when
it is shorter). -/
def pySliceLast (k : Nat) (s : String) : String :=
  ⟨s.data.drop (s.data.length - k)⟩

/-- Modelled from the spec: the Filename Sanitizer leaf of `utils.py`
(absent from src) — "turns a free-text prompt into a filesystem-safe
base filename; deterministic, pure function".  Characters unsafe for a
file name are replaced by underscores. -/
def sanitize_filename (s : String) : String :=
  ⟨s.data.map (fun c =>
    if c.isAlphanum ∨ c = '-' ∨ c = '_' ∨ c = '.' then c else '_')⟩

/-- Python `output_dir / name` (path join), rendered as a string. -/
def joinPath (dir name : String) : String :=
  dir ++ "/" ++ name

/-! ### Data model (from `src/lumina/core.py`) -/

/-- One element of the `contents` list: the prompt text or a loaded
reference image (`List[Union[str, Image.Image]]`); image payloads are
identified abstractly by a number. -/
inductive Content where
  | text (s : String)
  | image (img : Nat)
deriving DecidableEq, Repr

/-- Filesystem/decoder status of one reference-image path of the call:
the path does not exist, `Image.open` raises, or it loads. -/
inductive RefStatus where
  | missing
  | loadError
  | loaded (img : Nat)
deriving DecidableEq, Repr

structure RefImage where
  path : String
  status : RefStatus
deriving DecidableEq, Repr

/-- One response part (`response.parts[k]`): optional text, and whether
it carries an image payload (`part.inline_data or part.as_image()`). -/
structure RespPart where
  text : Option String
  hasImage : Bool
deriving DecidableEq, Repr

structure Response where
  parts : List RespPart
deriving DecidableEq, Repr

structure SafetySetting where
  category : String
  threshold : String
deriving DecidableEq, Repr

structure ImageConfig where
  aspect_ratio : String
  image_size : String
deriving DecidableEq, Repr

/-- The `config` dict built inside the loop. -/
structure RequestConfig where
  response_modalities : List String
  image_config : ImageConfig
  safety_settings : List SafetySetting
deriving DecidableEq, Repr

/-- One `client.models.generate_content(...)` invocation payload. -/
structure Request where
  model : String
  contents : List Content
  config : RequestConfig
deriving DecidableEq, Repr

/-- A raised Python exception, identified by its message. -/
abbrev PyErr : Type := String

/-- Outcome of one `generate` call: the client invocations issued, in
order, and either the returned list of saved paths or the exception the
call re-raises. -/
structure GenResult where
  requests : List Request
  result : Except PyErr (List String)

/-- The keyword parameters of `ImageGenerator.generate` (lumina
variant). -/
structure GenParams where
  prompt : String
  reference_images : List RefImage
  count : Nat
  aspect_ratio : String
  image_size : String
  negative_prompt : Option String
  person_generation : String
  safety_filter_level : String
  add_watermark : Bool
  seed : Option Int
  output_dir : String
  filename : Option String
deriving DecidableEq, Repr

/-- The `ImageGenerator` constructor arguments / instance fields. -/
structure ImageGenerator where
  model_name : String
  api_key : Option String
  project_id : Option String
  location : String
deriving DecidableEq, Repr

/-- The `genai.Client(...)` value the `client` property constructs:
either Studio mode (`api_key=..., vertexai=False`) or Vertex mode
(`vertexai=True, project=..., location=...`). -/
inductive ClientMode where
  | studio (api_key : String) (vertexai : Bool)
  | vertex (vertexai : Bool) (project : String) (location : String)
deriving DecidableEq, Repr

/-! ### Translated operations (from `src/lumina/core.py`) -/

/-- `ImageGenerator.__init__`: stores the four fields; it has no failure
path (the Vertex environment-variable side effects have no bearing on
any claim). -/
def initGenerator (model_name : String) (api_key project_id : Option String)
    (location : String) : ImageGenerator :=
  { model_name := model_name, api_key := api_key, project_id := project_id,
    location := location }

/-- The `client` property body on first access (`self._client is None`):
`Except.error` models the raised `ValueError`. -/
def clientProperty (g : ImageGenerator) : Except PyErr ClientMode :=
  if strTruthy g.api_key then
    Except.ok (ClientMode.studio (g.api_key.getD "") false)
  else if strTruthy g.project_id = false then
    Except.error "Project ID is required for Vertex AI."
  else
    Except.ok (ClientMode.vertex true (g.project_id.getD "") g.location)

/-- The dict literal `mapping` of `_resolve_safety_threshold`. -/
def safetyMapping : List (String × String) :=
  [("BLOCK_SOME", "BLOCK_ONLY_HIGH"),
   ("BLOCK_MOST", "BLOCK_LOW_AND_ABOVE"),
   ("BLOCK_FEW", "BLOCK_ONLY_HIGH"),
   ("BLOCK_NONE", "BLOCK_NONE")]

/-- `ImageGenerator._resolve_safety_threshold`: upper-case, then
`mapping.get(level, level)`. -/
def resolve_safety_threshold (level : String) : String :=
  let level := pyUpper level
  (List.lookup level safetyMapping).getD level

/-- Steps 1 and 2 of `generate`: negative-prompt clause then
person-generation clause appended to the prompt. -/
def finalPrompt (p : GenParams) : String :=
  let fp := p.prompt
  let fp := if strTruthy p.negative_prompt then
      fp ++ " \n(Exclude: " ++ p.negative_prompt.getD "" ++ ")"
    else fp
  if p.person_generation = "dont_allow" then
    fp ++ " \n(Do not include people in this image.)"
  else if p.person_generation = "allow_adult" then
    fp ++ " \n(If people are included, they must be adults.)"
  else fp

/-- The `for img_path in reference_images` loop: a missing path is
skipped (`continue`), a load failure is swallowed (`except` + log), a
loaded image is appended. -/
def loadReferenceImages : List RefImage → List Content
  | [] => []
  | r :: rest =>
    match r.status with
    | RefStatus.missing => loadReferenceImages rest
    | RefStatus.loadError => loadReferenceImages rest
    | RefStatus.loaded img => Content.image img :: loadReferenceImages rest

/-- `contents = [final_prompt]` then the reference-image loop. -/
def assembleContents (p : GenParams) : List Content :=
  Content.text (finalPrompt p) :: loadReferenceImages p.reference_images

/-- The `config` dict literal built in each loop iteration. -/
def buildConfig (aspect_ratio image_size valid_threshold : String) : RequestConfig :=
  { response_modalities := ["TEXT", "IMAGE"],
    image_config := { aspect_ratio := aspect_ratio, image_size := image_size },
    safety_settings :=
      [{ category := "HARM_CATEGORY_HARASSMENT", threshold := valid_threshold },
       { category := "HARM_CATEGORY_HATE_SPEECH", threshold := valid_threshold },
       { category := "HARM_CATEGORY_SEXUALLY_EXPLICIT", threshold := valid_threshold },
       { category := "HARM_CATEGORY_DANGEROUS_CONTENT", threshold := valid_threshold }] }

/-- The payload of one `client.models.generate_content` invocation. -/
def mkRequest (p : GenParams) (model : String) : Request :=
  { model := model,
    contents := assembleContents p,
    config := buildConfig p.aspect_ratio p.image_size
      (resolve_safety_threshold p.safety_filter_level) }

/-- The per-part filename logic of `generate` (lines 175-196 of
`src/lumina/core.py`), for loop index `i` and a response with
`numParts` parts. -/
def saveName (p : GenParams) (i : Nat) (numParts : Nat) : String :=
  let current := if strTruthy p.filename then p.filename.getD ""
    else sanitize_filename p.prompt
  if p.count > 1 ∨ numParts > 1 then
    if strTruthy p.filename then
      let f := p.filename.getD ""
      pyStem f ++ "_" ++ decRepr i ++
        (if pySuffix f = "" then ".png" else pySuffix f)
    else
      pyStem current ++ "_" ++ decRepr i ++ "_" ++
        pySliceLast 6 (sanitize_filename "img") ++
        (if pySuffix current = "" then ".png" else pySuffix current)
  else current

/-- The `for part in response.parts` loop of one iteration: each image
part is saved under `output_dir / saveName`; text parts only log. -/
def iterFiles (p : GenParams) (i : Nat) (resp : Response) : List String :=
  resp.parts.filterMap fun part =>
    if part.hasImage then
      some (joinPath p.output_dir (saveName p i resp.parts.length))
    else none

/-- The counted `for i in range(count)` loop with its try/except: a
failed iteration is swallowed unless it is the last one and the
accumulated `saved_files` list is still empty, in which case the
exception is re-raised. -/
def genLoop (p : GenParams) (model : String)
    (client : Nat → Except PyErr Response) :
    List Nat → List String → List Request → GenResult
  | [], saved, reqs => { requests := reqs, result := Except.ok saved }
  | i :: rest, saved, reqs =>
    let _ := p.seed
    let req := mkRequest p model
    match client i with
    | Except.ok resp =>
      genLoop p model client rest (saved ++ iterFiles p i resp) (reqs ++ [req])
    | Except.error e =>
      if rest = [] ∧ saved = [] then
        { requests := reqs ++ [req], result := Except.error e }
      else
        genLoop p model client rest saved (reqs ++ [req])

/-- `ImageGenerator.generate` of `src/lumina/core.py`, with the client
given as an oracle over loop indices. -/
def generate (p : GenParams) (model : String)
    (client : Nat → Except PyErr Response) : GenResult :=
  genLoop p model client (List.range p.count) [] []

/-- What loop iteration `i` contributes to `saved_files`. -/
def iterSaved (p : GenParams) (client : Nat → Except PyErr Response)
    (i : Nat) : List String :=
  match client i with
  | Except.ok resp => iterFiles p i resp
  | Except.error _ => []

/-- All files the batch saves by the time the loop ends. -/
def batchSaved (p : GenParams) (client : Nat → Except PyErr Response) : List String :=
  (List.range p.count).flatMap (iterSaved p client)

/-! ### Loop lemmas -/

theorem genLoop_requests (p : GenParams) (model : String)
    (client : Nat → Except PyErr Response) :
    ∀ (idxs : List Nat) (saved : List String) (reqs : List Request),
      (genLoop p model client idxs saved reqs).requests =
        reqs ++ List.replicate idxs.length (mkRequest p model) := by
  intro idxs
  induction idxs with
  | nil => intro saved reqs; simp [genLoop]
  | cons i rest ih =>
    intro saved reqs
    cases h : client i with
    | ok resp =>
      simp only [genLoop, h]
      rw [ih]
      simp [List.replicate_succ, List.append_assoc]
    | error e =>
      simp only [genLoop, h]
      split
      · next hc =>
        simp [hc.1, List.replicate_succ]
      · rw [ih]
        simp [List.replicate_succ, List.append_assoc]

theorem genLoop_ok (p : GenParams) (model : String)
    (client : Nat → Except PyErr Response) :
    ∀ (idxs : List Nat) (saved : List String) (reqs : List Request),
      saved ++ idxs.flatMap (iterSaved p client) ≠ [] →
      (genLoop p model client idxs saved reqs).result =
        Except.ok (saved ++ idxs.flatMap (iterSaved p client)) := by
  intro idxs
  induction idxs with
  | nil => intro saved reqs h; simp [genLoop]
  | cons i rest ih =>
    intro saved reqs h
    cases hc : client i with
    | ok resp =>
      have hi : iterSaved p client i = iterFiles p i resp := by
        simp [iterSaved, hc]
      simp only [genLoop, hc]
      rw [ih]
      · simp [hi, List.append_assoc]
      · simpa [hi, List.append_assoc] using h
    | error e =>
      have hi : iterSaved p client i = [] := by
        simp [iterSaved, hc]
      simp only [genLoop, hc]
      split
      · next hcnd =>
        exfalso
        apply h
        simp [hcnd.1, hcnd.2, hi]
      · rw [ih]
        · simp [hi]
        · simpa [hi] using h

theorem genLoop_cons_ok (p : GenParams) (model : String)
    (client : Nat → Except PyErr Response) {i : Nat} {resp : Response}
    (hc : client i = Except.ok resp) (rest : List Nat)
    (saved : List String) (reqs : List Request) :
    genLoop p model client (i :: rest) saved reqs =
      genLoop p model client rest (saved ++ iterFiles p i resp)
        (reqs ++ [mkRequest p model]) := by
  simp only [genLoop, hc]

theorem genLoop_cons_err (p : GenParams) (model : String)
    (client : Nat → Except PyErr Response) {i : Nat} {e : PyErr}
    (hc : client i = Except.error e) (rest : List Nat)
    (saved : List String) (reqs : List Request) :
    genLoop p model client (i :: rest) saved reqs =
      if rest = [] ∧ saved = [] then
        { requests := reqs ++ [mkRequest p model], result := Except.error e }
      else genLoop p model client rest saved (reqs ++ [mkRequest p model]) := by
  simp only [genLoop, hc]

theorem genLoop_err (p : GenParams) (model : String)
    (client : Nat → Except PyErr Response) :
    ∀ (idxs : List Nat) (reqs : List Request) (j : Nat) (e : PyErr),
      (∀ i ∈ idxs, iterSaved p client i = []) →
      idxs.getLast? = some j →
      client j = Except.error e →
      (genLoop p model client idxs [] reqs).result = Except.error e := by
  intro idxs
  induction idxs with
  | nil => intro reqs j e _ hlast _; simp at hlast
  | cons i rest ih =>
    intro reqs j e hall hlast hj
    cases hc : client i with
    | ok resp =>
      have hi : iterFiles p i resp = [] := by
        have := hall i (by simp)
        simpa [iterSaved, hc] using this
      rw [genLoop_cons_ok p model client hc, hi, List.append_nil]
      cases rest with
      | nil =>
        simp only [List.getLast?_singleton, Option.some.injEq] at hlast
        subst hlast
        rw [hj] at hc
        simp at hc
      | cons b bs =>
        exact ih _ j e (fun x hx => hall x (by simp [hx]))
          (by simpa [List.getLast?_cons_cons] using hlast) hj
    | error e' =>
      rw [genLoop_cons_err p model client hc]
      cases rest with
      | nil =>
        simp only [List.getLast?_singleton, Option.some.injEq] at hlast
        subst hlast
        rw [hj] at hc
        injection hc with he
        subst he
        simp
      | cons b bs =>
        rw [if_neg (by simp)]
        exact ih _ j e (fun x hx => hall x (by simp [hx]))
          (by simpa [List.getLast?_cons_cons] using hlast) hj

/-! ### Concrete fixtures used by witnesses and counterexamples -/

def baseParams : GenParams :=
  { prompt := "a red fox", reference_images := [], count := 1,
    aspect_ratio := "1:1", image_size := "1K", negative_prompt := none,
    person_generation := "allow_all", safety_filter_level := "BLOCK_ONLY_HIGH",
    add_watermark := true, seed := none, output_dir := "out", filename := none }

def imagePart : RespPart := { text := none, hasImage := true }

def oneImageClient : Nat → Except PyErr Response :=
  fun _ => Except.ok { parts := [imagePart] }

def failingClient : Nat → Except PyErr Response :=
  fun _ => Except.error "boom"

def twoImageResp : Response := { parts := [imagePart, imagePart] }

def twoImageClient : Nat → Except PyErr Response :=
  fun _ => Except.ok twoImageResp

def overrideParams : GenParams := { baseParams with filename := some "result" }

/-! ### Claim theorems -/

/-- C1: if every one of the `count` iterations fails and nothing was
saved, `generate` re-raises the last iteration's exception; if at least
one image was saved by the time the loop ends, `generate` returns the
accumulated saved list without raising, whatever other iterations did;
and no iteration's failure ever aborts the loop (all `count` client
invocations are always issued). -/
theorem generate_partial_failure_policy (p : GenParams) (model : String)
    (client : Nat → Except PyErr Response) (e : PyErr) (hc : 1 ≤ p.count) :
    ((∀ i, i < p.count → ∃ ei, client i = Except.error ei) →
        client (p.count - 1) = Except.error e →
        (generate p model client).result = Except.error e)
    ∧ (batchSaved p client ≠ [] →
        (generate p model client).result = Except.ok (batchSaved p client))
    ∧ (generate p model client).requests.length = p.count := by
  refine ⟨?_, ?_, ?_⟩
  · intro hfail hlast
    have hall : ∀ i ∈ List.range p.count, iterSaved p client i = [] := by
      intro i hi
      rcases hfail i (List.mem_range.mp hi) with ⟨ei, hei⟩
      simp [iterSaved, hei]
    have hlast2 : (List.range p.count).getLast? = some (p.count - 1) := by
      obtain ⟨k, hk⟩ : ∃ k, p.count = k + 1 := ⟨p.count - 1, by omega⟩
      rw [hk, List.range_succ, List.getLast?_concat]
      simp
    simpa [generate] using
      genLoop_err p model client (List.range p.count) [] (p.count - 1) e hall hlast2 hlast
  · intro hne
    have h := genLoop_ok p model client (List.range p.count) [] []
      (by simpa [batchSaved] using hne)
    simpa [generate, batchSaved] using h
  · rw [generate, genLoop_requests]
    simp

theorem generate_partial_failure_policy_witness :
    (generate baseParams "gemini-3-pro-image-preview" failingClient).result =
      Except.error "boom" :=
  (generate_partial_failure_policy baseParams "gemini-3-pro-image-preview"
      failingClient "boom" (by decide)).1
    (fun _ _ => ⟨"boom", rfl⟩) rfl

/-- C2: a truthy `api_key` always selects Studio-mode client
construction (`api_key`, `vertexai=False`) regardless of `project_id`;
no `api_key` but a truthy `project_id` selects cloud-mode construction
(`vertexai=True`, project, location); neither makes the first `client`
access raise `ValueError`; constructing the generator itself never
raises. -/
theorem client_auth_selection (m : String) (a p : Option String) (l : String) :
    initGenerator m a p l =
      { model_name := m, api_key := a, project_id := p, location := l }
    ∧ (strTruthy a = true →
        clientProperty (initGenerator m a p l) =
          Except.ok (ClientMode.studio (a.getD "") false))
    ∧ (strTruthy a = false → strTruthy p = true →
        clientProperty (initGenerator m a p l) =
          Except.ok (ClientMode.vertex true (p.getD "") l))
    ∧ (strTruthy a = false → strTruthy p = false →
        clientProperty (initGenerator m a p l) =
          Except.error "Project ID is required for Vertex AI.") := by
  refine ⟨rfl, ?_, ?_, ?_⟩
  · intro ha
    simp [clientProperty, initGenerator, ha]
  · intro ha hp
    simp [clientProperty, initGenerator, ha, hp]
  · intro ha hp
    simp [clientProperty, initGenerator, ha, hp]

theorem client_auth_selection_witness :
    clientProperty (initGenerator "gemini-3-pro-image-preview" (some "k")
        (some "proj") "us-central1") =
      Except.ok (ClientMode.studio "k" false) :=
  (client_auth_selection "gemini-3-pro-image-preview" (some "k") (some "proj")
      "us-central1").2.1 (by decide)

/-- C3: every `generate` call issues exactly `count` client invocations,
each carrying the same contents and a config with response modalities
TEXT and IMAGE, the given aspect ratio and image size, and the four
fixed harm categories, each at the same normalized threshold. -/
theorem generate_request_payloads (p : GenParams) (model : String)
    (client : Nat → Except PyErr Response) :
    (generate p model client).requests =
      List.replicate p.count
        { model := model,
          contents := assembleContents p,
          config :=
            { response_modalities := ["TEXT", "IMAGE"],
              image_config :=
                { aspect_ratio := p.aspect_ratio, image_size := p.image_size },
              safety_settings :=
                [{ category := "HARM_CATEGORY_HARASSMENT",
                   threshold := resolve_safety_threshold p.safety_filter_level },
                 { category := "HARM_CATEGORY_HATE_SPEECH",
                   threshold := resolve_safety_threshold p.safety_filter_level },
                 { category := "HARM_CATEGORY_SEXUALLY_EXPLICIT",
                   threshold := resolve_safety_threshold p.safety_filter_level },
                 { category := "HARM_CATEGORY_DANGEROUS_CONTENT",
                   threshold := resolve_safety_threshold p.safety_filter_level }] } } := by
  rw [generate, genLoop_requests]
  simp [mkRequest, buildConfig]

/-- C4: in the multi-output branch (`count > 1` or more than one
response part), the saved filename is the base stem, the zero-based loop
index, the sanitized-constant salt for auto-naming (no salt with an
override), and the base suffix defaulted to `.png`; names of different
loop iterations are pairwise distinct. -/
theorem filename_disambiguation (p : GenParams) (i j numParts : Nat)
    (h : p.count > 1 ∨ numParts > 1) :
    (strTruthy p.filename = false →
        saveName p i numParts =
          pyStem (sanitize_filename p.prompt) ++ "_" ++ decRepr i ++ "_" ++
            pySliceLast 6 (sanitize_filename "img") ++
            (if pySuffix (sanitize_filename p.prompt) = "" then ".png"
             else pySuffix (sanitize_filename p.prompt)))
    ∧ (∀ f, p.filename = some f → f ≠ "" →
        saveName p i numParts =
          pyStem f ++ "_" ++ decRepr i ++
            (if pySuffix f = "" then ".png" else pySuffix f))
    ∧ (i ≠ j → saveName p i numParts ≠ saveName p j numParts) := by
  refine ⟨?_, ?_, ?_⟩
  · intro hf
    simp [saveName, hf, h]
  · intro f hf hne
    have hsf : strTruthy (some f) = true := by simp [strTruthy, hne]
    simp [saveName, hf, hsf, h]
  · intro hij heq
    by_cases hf : strTruthy p.filename = true
    · simp [saveName, hf, h] at heq
      have hd := congrArg String.data heq
      simp only [string_data_append, decRepr, List.append_assoc] at hd
      exact hij (decDigits_inj i j
        (List.append_cancel_right (List.append_cancel_left (List.append_cancel_left hd))))
    · have hf2 : strTruthy p.filename = false := by simpa using hf
      simp [saveName, hf2, h] at heq
      have hd := congrArg String.data heq
      simp only [string_data_append, decRepr, List.append_assoc] at hd
      exact hij (decDigits_inj i j
        (List.append_cancel_right (List.append_cancel_left (List.append_cancel_left hd))))

theorem filename_disambiguation_witness :
    saveName { baseParams with count := 2 } 0 1 ≠
      saveName { baseParams with count := 2 } 1 1 :=
  (filename_disambiguation { baseParams with count := 2 } 0 1 1 (by decide)).2.2
    (by decide)

/-- C5 (amended): for `count = 1` and a single-part response carrying an
image, the saved filename has no disambiguation suffix: it is exactly
the truthy filename override when one was given, or the sanitized
original (non-augmented) prompt otherwise — used as-is, with no default
extension applied on this path. -/
theorem single_image_filename (p : GenParams) (model : String)
    (client : Nat → Except PyErr Response) (part : RespPart) (resp : Response)
    (hc : p.count = 1) (hcl : client 0 = Except.ok resp)
    (hparts : resp.parts = [part]) (himg : part.hasImage = true) :
    (generate p model client).result =
      Except.ok [joinPath p.output_dir
        (if strTruthy p.filename then p.filename.getD ""
         else sanitize_filename p.prompt)] := by
  have hrange : List.range p.count = [0] := by rw [hc]; rfl
  rw [generate, hrange, genLoop_cons_ok p model client hcl]
  have hfiles : iterFiles p 0 resp =
      [joinPath p.output_dir
        (if strTruthy p.filename then p.filename.getD ""
         else sanitize_filename p.prompt)] := by
    simp [iterFiles, hparts, himg, saveName, hc]
  simp [genLoop, hfiles]

theorem single_image_filename_witness :
    (generate baseParams "gemini-3-pro-image-preview" oneImageClient).result =
      Except.ok [joinPath "out" (sanitize_filename "a red fox")] := by
  have h := single_image_filename baseParams "gemini-3-pro-image-preview"
    oneImageClient imagePart { parts := [imagePart] } rfl rfl rfl rfl
  simpa [baseParams, strTruthy] using h

/-- C5 counterexample: with `count = 1`, one image part and the
extension-less override `result`, the saved name is exactly
`out/result`, not `out/result.png` as the claim's default-extension
clause predicts. -/
theorem single_image_no_default_extension :
    (generate overrideParams "m" oneImageClient).result =
      Except.ok ["out/result"]
    ∧ pySuffix "result" = ""
    ∧ ["out/result"] ≠ ["out/result.png"] := by
  refine ⟨rfl, by decide, by decide⟩

/-- C6 (amended): inputs whose upper-casing is in the mapping table are
rewritten to the documented canonical values; every other input passes
through case-folded to upper (hence unchanged exactly when already
upper-case), with no error case. -/
theorem resolve_safety_threshold_spec (s : String) :
    resolve_safety_threshold s =
      if pyUpper s = "BLOCK_SOME" then "BLOCK_ONLY_HIGH"
      else if pyUpper s = "BLOCK_MOST" then "BLOCK_LOW_AND_ABOVE"
      else if pyUpper s = "BLOCK_FEW" then "BLOCK_ONLY_HIGH"
      else if pyUpper s = "BLOCK_NONE" then "BLOCK_NONE"
      else pyUpper s := by
  unfold resolve_safety_threshold safetyMapping
  by_cases h1 : pyUpper s = "BLOCK_SOME"
  · simp [List.lookup, h1]
  · by_cases h2 : pyUpper s = "BLOCK_MOST"
    · simp [List.lookup, h1, h2]
    · by_cases h3 : pyUpper s = "BLOCK_FEW"
      · simp [List.lookup, h1, h2, h3]
      · by_cases h4 : pyUpper s = "BLOCK_NONE"
        · simp [List.lookup, h1, h2, h3, h4]
        · have b1 : (pyUpper s == "BLOCK_SOME") = false := by simp [h1]
          have b2 : (pyUpper s == "BLOCK_MOST") = false := by simp [h2]
          have b3 : (pyUpper s == "BLOCK_FEW") = false := by simp [h3]
          have b4 : (pyUpper s == "BLOCK_NONE") = false := by simp [h4]
          simp [List.lookup, b1, b2, b3, b4, h1, h2, h3, h4]

/-- C6 counterexample: the unknown input `foo` does not pass through
unchanged — it comes back upper-cased. -/
theorem resolve_safety_passthrough_counterexample :
    resolve_safety_threshold "foo" = "FOO"
    ∧ resolve_safety_threshold "foo" ≠ "foo" := by
  refine ⟨by decide, by decide⟩

/-- The reference-image loop realises a filter over the statuses. -/
theorem loadReferenceImages_eq_filterMap (l : List RefImage) :
    loadReferenceImages l = l.filterMap (fun r =>
      match r.status with
      | RefStatus.loaded img => some (Content.image img)
      | RefStatus.missing => none
      | RefStatus.loadError => none) := by
  induction l with
  | nil => rfl
  | cons r rest ih =>
    cases hs : r.status <;>
      simp [loadReferenceImages, hs, ih, List.filterMap_cons]

/-- C7: the request content is the augmented prompt followed by exactly
the successfully loaded reference images, in order; missing or
unloadable reference images are dropped without raising, and the full
batch of client invocations still proceeds. -/
theorem contents_assembly (p : GenParams) (model : String)
    (client : Nat → Except PyErr Response) :
    assembleContents p =
      Content.text (finalPrompt p) ::
        p.reference_images.filterMap (fun r =>
          match r.status with
          | RefStatus.loaded img => some (Content.image img)
          | RefStatus.missing => none
          | RefStatus.loadError => none)
    ∧ (generate p model client).requests.length = p.count := by
  constructor
  · rw [assembleContents, loadReferenceImages_eq_filterMap]
  · rw [generate, genLoop_requests]
    simp

/-- C8: two `generate` calls differing only in the seed argument issue
identical client invocations (same contents, same config): the seed is
accepted but never forwarded. -/
theorem seed_never_forwarded (p : GenParams) (s₁ s₂ : Option Int)
    (model : String) (client : Nat → Except PyErr Response) :
    (generate { p with seed := s₁ } model client).requests =
      (generate { p with seed := s₂ } model client).requests := by
  rw [generate, generate, genLoop_requests, genLoop_requests]
  rfl

/-- Saving a constant name for every image part is a replication. -/
theorem filterMap_const_pathname (l : List RespPart) (path : String) :
    (l.filterMap fun part => if part.hasImage then some path else none) =
      List.replicate (l.countP (fun part => part.hasImage)) path := by
  induction l with
  | nil => rfl
  | cons a rest ih =>
    by_cases ha : a.hasImage <;>
      simp [List.filterMap_cons, List.countP_cons, ha, ih, List.replicate_succ]

/-- C9: within one loop iteration every image part is saved under the
identical filename (the part index is never used), so the saved-paths
list of that iteration repeats one path, once per image part, and for
`count = 1` that repetition is exactly what `generate` returns. -/
theorem duplicate_filenames_within_iteration (p : GenParams) (i : Nat)
    (resp : Response) (model : String)
    (client : Nat → Except PyErr Response) :
    iterFiles p i resp =
      List.replicate (resp.parts.countP (fun part => part.hasImage))
        (joinPath p.output_dir (saveName p i resp.parts.length))
    ∧ (p.count = 1 → client 0 = Except.ok resp →
        (generate p model client).result = Except.ok (iterFiles p 0 resp)) := by
  constructor
  · rw [iterFiles]
    exact filterMap_const_pathname resp.parts _
  · intro hc hcl
    have hrange : List.range p.count = [0] := by rw [hc]; rfl
    rw [generate, hrange, genLoop_cons_ok p model client hcl]
    simp [genLoop]

theorem duplicate_filenames_witness :
    (generate { baseParams with filename := some "dup.png" } "m"
        twoImageClient).result =
      Except.ok ["out/dup_0.png", "out/dup_0.png"] := by
  have h := (duplicate_filenames_within_iteration
      { baseParams with filename := some "dup.png" } 0 twoImageResp "m"
      twoImageClient).2 rfl rfl
  rw [h]
  have h0 : decRepr 0 = "0" := by
    rw [decRepr, decDigits_lt 0 (by omega)]
    rfl
  simp [iterFiles, twoImageResp, imagePart, saveName, baseParams, strTruthy,
    joinPath, h0]
  decide

/-! ### The generate_gemini_image variant's CLI call (for C10) -/

/-- Parameter names of `ImageGenerator.generate` in
`src/generate_gemini_image/core.py` (lines 68-81): this variant has no
`filename` parameter and no kwargs catch-all. -/
def gemGenerateParamNames : List String :=
  ["self", "prompt", "reference_images", "count", "aspect_ratio",
   "image_size", "negative_prompt", "person_generation",
   "safety_filter_level", "add_watermark", "seed", "output_dir"]

/-- Keyword-argument names `main` in `src/generate_gemini_image/cli.py`
passes to `generator.generate(...)` (lines 268-281), in call order. -/
def gemCliKwargNames : List String :=
  ["prompt", "reference_images", "count", "aspect_ratio", "image_size",
   "negative_prompt", "person_generation", "safety_filter_level",
   "add_watermark", "seed", "output_dir", "filename"]

/-- Python call binding: a keyword argument whose name is not a
parameter of the callee raises `TypeError` before the function body (and
hence any client request) runs; the bound names are returned otherwise. -/
def bindKwargs (params kwargs : List String) : Except PyErr (List String) :=
  match kwargs.find? (fun k => !(params.contains k)) with
  | some k => Except.error ("generate() got an unexpected keyword argument: " ++ k)
  | none => Except.ok kwargs

/-- C10: the generate_gemini_image CLI always passes a `filename` kwarg
that this variant's `generate` does not accept, so the call raises
`TypeError` during binding — before the body could issue any client
request — and the `--filename` option can never take effect there. -/
theorem cli_generate_call_raises_type_error :
    bindKwargs gemGenerateParamNames gemCliKwargNames =
      Except.error "generate() got an unexpected keyword argument: filename"
    ∧ "filename" ∈ gemCliKwargNames
    ∧ "filename" ∉ gemGenerateParamNames := by
  refine ⟨rfl, by decide, by decide⟩
